import Mathlib

/-!
Verification development for the nocodebackend-frontend repository.

The Python routes and helpers are shallowly embedded as executable Lean
definitions: dictionaries become association lists, backend HTTP calls
become explicit outcome values passed in as arguments, and exceptions
become Except values.  All definitions are translated from the source
files under routes/, utils/ and the exported backend api module.
-/

set_option maxRecDepth 4000

namespace NocodeFrontend

/-! ## Association list primitives

Python dict operations (lookup, key deletion) on string-keyed stores.
Lookup returns the first matching entry; the application only ever builds
stores with pairwise distinct keys, for which this agrees with dict
semantics. -/

def alookup {β : Type} (k : String) : List (String × β) → Option β
  | [] => none
  | (k2, v) :: rest => if k = k2 then some v else alookup k rest

def aerase {β : Type} (k : String) : List (String × β) → List (String × β)
  | [] => []
  | (k2, v) :: rest => if k = k2 then rest else (k2, v) :: aerase k rest

/-! ## Python str.replace

Models CPython str.replace for a non-empty pattern: scan left to right,
replacing every non-overlapping occurrence.  The recursion carries fuel
equal to the length of the scanned text; every step consumes at least one
character, so the fuel is never exhausted and the zero-fuel branch is
unreachable for the initial fuel used by pyReplace. -/

def replaceFuel (pat rep : List Char) : Nat → List Char → List Char
  | _, [] => []
  | 0, l => l
  | fuel + 1, c :: rest =>
    if pat.isPrefixOf (c :: rest) then
      rep ++ replaceFuel pat rep fuel (List.drop (pat.length - 1) rest)
    else
      c :: replaceFuel pat rep fuel rest

def pyReplace (s pat rep : String) : String :=
  ⟨replaceFuel pat.data rep.data s.data.length s.data⟩

/-! ## Thread records and site grouping (utils/helpers.py) -/

structure Thread where
  id : Nat
  external_page_id : String
  url : String
  title : String
deriving Repr, DecidableEq

structure SiteGroup where
  site_id : String
  site_name : String
  site_url : String
  threads : List Thread
  total_comments : Nat
deriving Repr, DecidableEq

def mainThreadMarker : String := " - Main Thread"

/-- The site name computation of the source:
`thread.get("title", "").replace(" - Main Thread", "")`. -/
def siteNameOf (title : String) : String := pyReplace title mainThreadMarker ""

/-- The fresh group created when a site key is seen for the first time,
as in group_threads_by_site in utils/helpers.py. -/
def newSiteGroup (t : Thread) : SiteGroup :=
  { site_id := t.external_page_id
    site_name := siteNameOf t.title
    site_url := t.url
    threads := []
    total_comments := 0 }

/-- One iteration of the loop body of group_threads_by_site: create the
group if the key is absent, then append the thread to the threads list of
the group stored under the key. -/
def addThreadToSites (sites : List (String × SiteGroup)) (t : Thread) :
    List (String × SiteGroup) :=
  let sites2 :=
    if (alookup t.external_page_id sites).isSome then sites
    else sites ++ [(t.external_page_id, newSiteGroup t)]
  sites2.map (fun e =>
    if e.1 = t.external_page_id then (e.1, { e.2 with threads := e.2.threads ++ [t] })
    else e)

def group_threads_by_site (threads : List Thread) : List (String × SiteGroup) :=
  threads.foldl addThreadToSites []

/-- Modelled from the claim wording for comparison with the source: the
title with the literal suffix " - Main Thread" removed when the title
ends with it, and left unchanged otherwise. -/
def stripSuffixSpec (title : String) : String :=
  if mainThreadMarker.data.isSuffixOf title.data then
    ⟨title.data.take (title.data.length - mainThreadMarker.data.length)⟩
  else title

/-- The group expected for a given key: the input threads sharing that
external_page_id in input order, with name and url taken from the first
of them. -/
def expectedGroup (epid : String) (threads : List Thread) : Option SiteGroup :=
  match threads.filter (fun t => t.external_page_id == epid) with
  | [] => none
  | t0 :: rest =>
    some { site_id := epid
           site_name := siteNameOf t0.title
           site_url := t0.url
           threads := t0 :: rest
           total_comments := 0 }

/-! ## Landing page themes (routes/pages.py) -/

def valid_themes : List String :=
  ["default", "dark", "matrix", "neocities", "serene-mist", "neon-pulse",
   "geometric-prime", "forest-flow", "digital-chaos"]

structure HomeRender where
  current_theme : String
  available_themes : List String
deriving Repr, DecidableEq

/-- The home route: read the optional tema query parameter with default
"default", substitute "default" when it is not a valid theme, and render
with the resolved theme and the full theme list. -/
def home (tema : Option String) : HomeRender :=
  let theme := tema.getD "default"
  let theme2 := if theme ∈ valid_themes then theme else "default"
  { current_theme := theme2, available_themes := valid_themes }

/-! ## Comments proxy query parameters (routes/comments.py, list_comments) -/

/-- The query parameter dict forwarded to the backend by GET /comments/.
thread_referencia_id and limit are added under Python truthiness, so a
zero value is dropped; is_approved is compared against None, so a zero
value is kept. -/
def list_comments_params (thread_referencia_id is_approved limit : Option Int) :
    List (String × Int) :=
  let params : List (String × Int) := []
  let params2 :=
    match thread_referencia_id with
    | some v => if v ≠ 0 then params ++ [("thread_referencia_id", v)] else params
    | none => params
  let params3 :=
    match is_approved with
    | some v => params2 ++ [("is_approved", v)]
    | none => params2
  match limit with
  | some v => if v ≠ 0 then params3 ++ [("limit", v)] else params3
  | none => params3

/-! ## Session store (routes/auth.py, get_current_user)

Timestamps are modelled in seconds; the 24 hour window of the source is
86400 seconds.  The user payload stored with each session is abstracted
to a string.  The sessions dict is an association list; the application
only inserts fresh md5-hexdigest keys, so keys are nonempty and pairwise
distinct. -/

structure SessionEntry where
  user : String
  created_at : Int
deriving Repr, DecidableEq

/-- get_current_user: read the session cookie; a missing or empty cookie
(Python truthiness of the cookie string) or an unknown session id yields
no user and leaves the store unchanged; an entry older than 24 hours is
deleted and yields no user; otherwise the stored user payload is
returned.  The function returns the resolved user together with the
session store after the call. -/
def get_current_user (sessions : List (String × SessionEntry))
    (cookie : Option String) (now : Int) :
    Option String × List (String × SessionEntry) :=
  match cookie with
  | none => (none, sessions)
  | some sid =>
    if sid = "" then (none, sessions)
    else
      match alookup sid sessions with
      | none => (none, sessions)
      | some entry =>
        if now - entry.created_at > 86400 then (none, aerase sid sessions)
        else (some entry.user, sessions)

/-! ## Backend response shapes

Several routes accept either a bare JSON array or an object with a data
key from the backend and normalize with
x.get("data", []) if isinstance(x, dict) else x. -/

inductive RespShape (α : Type) where
  | arr (items : List α)
  | objWithData (items : List α)
  | objNoData
deriving Repr, DecidableEq

def extractData {α : Type} : RespShape α → List α
  | .arr l => l
  | .objWithData l => l
  | .objNoData => []

/-! ## Dashboard home (routes/dashboard.py, dashboard) -/

structure DashComment where
  id : Int
  is_approved : Option Int
deriving Repr, DecidableEq

structure DashStats where
  total : Nat
  approved : Nat
  pending : Nat
  rejected : Nat
  threads : Nat
deriving Repr, DecidableEq

inductive DashboardRender where
  | redirectLogin
  | page (threads : List Thread) (pending_comments : List DashComment)
      (stats : Option DashStats)
deriving Repr, DecidableEq

/-- The query parameters of the comment fetch issued by GET /dashboard. -/
def dashboardCommentsParams : List (String × Int) := [("is_approved", 0), ("limit", 10)]

/-- The number of fetched comments whose is_approved field equals v. -/
def countApproval (cs : List DashComment) (v : Int) : Nat :=
  (cs.filter (fun c => c.is_approved == some v)).length

/-- GET /dashboard: redirect unauthenticated users to the login page;
otherwise fetch threads and pending comments, derive the stats from the
two fetch results, and render; if either backend call failed, render with
empty lists and no stats. -/
def dashboard (user : Option String) (threadsResp : Except Unit (RespShape Thread))
    (commentsResp : Except Unit (RespShape DashComment)) : DashboardRender :=
  match user with
  | none => .redirectLogin
  | some _ =>
    match threadsResp, commentsResp with
    | .ok tr, .ok cr =>
      let ts := extractData tr
      let cs := extractData cr
      .page ts cs (some
        { total := cs.length
          approved := countApproval cs 1
          pending := countApproval cs 0
          rejected := countApproval cs 2
          threads := ts.length })
    | _, _ => .page [] [] none

/-! ## Site pages (routes/dashboard.py, sites_page and site_detail_page) -/

structure SiteInfo where
  site_id : String
  site_name : String
  site_url : String
deriving Repr, DecidableEq

inductive SiteDetailRender where
  | redirectLogin
  | page (site : Option SiteInfo) (threads : List Thread)
      (comments : List (DashComment × String))
deriving Repr, DecidableEq

inductive SitesRender where
  | redirectLogin
  | page (sites : List SiteGroup)
deriving Repr, DecidableEq

/-- GET /dashboard/sites/site_id: the thread listing is only consumed
when it is a dict containing a data key; the first listed thread supplies
the site info; comments are fetched per thread, tagged with the thread
title, and per-thread fetch failures or unexpected shapes are skipped
silently. -/
def site_detail_page (site_id : String) (user : Option String)
    (threadsResp : Except Unit (RespShape Thread))
    (commentsFetch : Nat → Except Unit (RespShape DashComment)) : SiteDetailRender :=
  match user with
  | none => .redirectLogin
  | some _ =>
    match threadsResp with
    | .error _ => .page none [] []
    | .ok shape =>
      match shape with
      | .objWithData ts =>
        let site_info :=
          match ts with
          | [] => none
          | t :: _ =>
            some { site_id := site_id, site_name := siteNameOf t.title, site_url := t.url }
        let comments := ts.foldl (fun acc t =>
          match commentsFetch t.id with
          | .ok (.objWithData cs) => acc ++ cs.map (fun c => (c, t.title))
          | _ => acc) ([] : List (DashComment × String))
        .page site_info ts comments
      | _ => .page none [] []

/-- GET /dashboard/sites: the thread listing is normalized with
extractData, so both bare arrays and objects with a data key are
accepted; the grouped site values are rendered. -/
def sites_page (user : Option String) (threadsResp : Except Unit (RespShape Thread)) :
    SitesRender :=
  match user with
  | none => .redirectLogin
  | some _ =>
    match threadsResp with
    | .error _ => .page []
    | .ok shape => .page ((group_threads_by_site (extractData shape)).map Prod.snd)

/-! ## Bulk moderation (routes/comments.py, moderate_comments_bulk)

The per-id backend call is modelled as a function from the comment id to
an Except value: ok carries the backend JSON result (abstracted to a
string), error carries the stringified exception. -/

structure ModerationEntry where
  comment_id : Int
  success : Bool
  result : Option String
  error : Option String
deriving Repr, DecidableEq

/-- The loop body of the bulk endpoint for a single id: a successful call
is recorded as comment_id, success true and the result payload; a failed
call is recorded as comment_id, success false and the error text. -/
def moderationEntryFor (backend : Int → Except String String) (cid : Int) :
    ModerationEntry :=
  match backend cid with
  | .ok r => { comment_id := cid, success := true, result := some r, error := none }
  | .error e => { comment_id := cid, success := false, result := none, error := some e }

/-- POST /comments/moderate: unauthenticated callers get a 401; otherwise
the ids are processed in order, appending one outcome entry per id. -/
def moderate_comments_bulk (user : Option String) (comment_ids : List Int)
    (backend : Int → Except String String) : Except Nat (List ModerationEntry) :=
  match user with
  | none => .error 401
  | some _ =>
    .ok (comment_ids.foldl (fun results cid => results ++ [moderationEntryFor backend cid]) [])

/-! ## Thread export tree (api/export.py, export_thread_data)

The export builds one dict per approved comment with an empty replies
list, indexes them by id in comment_map, and appends every comment with a
truthy parent_id to the replies list of its parent when the parent is in
the map.  Here the store is the list of comment dicts, each paired with
its replies list; since replies hold references to the shared dicts, the
replies lists are represented by comment ids.  The map based update below
appends to every entry whose id matches, which coincides with the dict
update of the source whenever the comment ids are distinct, as they are
for a backend result set. -/

structure ExportComment where
  id : Int
  author_name : String
  content : String
  created_at : String
  parent_id : Option Int
deriving Repr, DecidableEq

/-- Python truthiness of the parent_id value: None and 0 are falsy. -/
def pidTruthy (c : ExportComment) : Bool :=
  match c.parent_id with
  | none => false
  | some v => v != 0

def initStore (cs : List ExportComment) : List (ExportComment × List Int) :=
  cs.map (fun c => (c, ([] : List Int)))

/-- One iteration of the tree building pass. -/
def treeStep (store : List (ExportComment × List Int)) (c : ExportComment) :
    List (ExportComment × List Int) :=
  match c.parent_id with
  | none => store
  | some pid =>
    if pid ≠ 0 then
      store.map (fun e => if e.1.id = pid then (e.1, e.2 ++ [c.id]) else e)
    else store

def buildStore (cs : List ExportComment) : List (ExportComment × List Int) :=
  cs.foldl treeStep (initStore cs)

/-- The narrowed top level comments list of the export: only comments
without a truthy parent_id remain at top level. -/
def topLevel (cs : List ExportComment) : List (ExportComment × List Int) :=
  (buildStore cs).filter (fun e => !(pidTruthy e.1))

/-- The replies accumulated for the comment with the given id over a full
pass: the ids of the comments with that truthy parent_id, in input
order. -/
def repliesFrom (cs : List ExportComment) (i : Int) : List Int :=
  (cs.filter (fun d => pidTruthy d && (d.parent_id == some i))).map (fun d => d.id)

/-! ## API client (utils/api_client.py)

JSON values, HTTP outcomes and the error classes of the client.  The
source raises generic exceptions whose message starts with "API Error"
for a non-2xx response and with "Request failed:" otherwise; the two
classes are modelled as the constructors of ClientError and the message
rendering reproduces the source strings. -/

inductive JVal where
  | jnull
  | jbool (b : Bool)
  | jnum (n : Int)
  | jstr (s : String)
  | jarr (elems : List JVal)
  | jobj (fields : List (String × JVal))

structure HttpRequest where
  method : String
  url : String
  body : Option JVal
  params : List (String × JVal)

/-- The observable outcome of one HTTP call: a response with a status,
raw text and a JSON decode result (inr is the decode failure message), or
a transport level exception. -/
inductive HttpOutcome where
  | resp (status : Nat) (text : String) (body : JVal ⊕ String)
  | exn (msg : String)

inductive ClientError where
  | statusError (code : Nat) (body : String)
  | unreachable (msg : String)

/-- The exception message raised by the source for each error class. -/
def ClientError.message : ClientError → String
  | .statusError code body => "API Error " ++ toString code ++ ": " ++ body
  | .unreachable msg => "Request failed: " ++ msg

def charsHavePrefix : List Char → List Char → Bool
  | [], _ => true
  | p :: ps, l =>
    match l with
    | [] => false
    | c :: cs => p == c && charsHavePrefix ps cs

/-- A caller side discriminator on raw exception messages: true exactly
on the messages of the status error class. -/
def looksLikeStatusMessage (s : String) : Bool :=
  charsHavePrefix "API Error ".data s.data

def pyUpper (s : String) : String := ⟨s.data.map Char.toUpper⟩

/-- FrontendAPIClient._request: dispatch on the uppercased method, make
the one HTTP call, raise the status error class on a non-2xx status and
the unreachable class on any other failure, including a JSON decode
failure and the unsupported-method ValueError (which is raised before any
call is made).  The second component is the list of HTTP calls
performed. -/
def client_request (transport : HttpRequest → HttpOutcome) (base method endpoint : String)
    (data : Option JVal) (params : List (String × JVal)) :
    Except ClientError JVal × List HttpRequest :=
  if pyUpper method = "GET" ∨ pyUpper method = "POST" ∨ pyUpper method = "PUT"
      ∨ pyUpper method = "DELETE" then
    let req : HttpRequest :=
      { method := pyUpper method, url := base ++ endpoint, body := data, params := params }
    match transport req with
    | .resp status text body =>
      if 200 ≤ status ∧ status < 300 then
        match body with
        | .inl v => (.ok v, [req])
        | .inr m => (.error (.unreachable m), [req])
      else
        (.error (.statusError status text), [req])
    | .exn m => (.error (.unreachable m), [req])
  else
    (.error (.unreachable ("Unsupported HTTP method: " ++ method)), [])

/-- Python dict.get with a default, for JSON object fields. -/
def jfieldsGet (fields : List (String × JVal)) (k : String) (dflt : JVal) : JVal :=
  match fields with
  | [] => dflt
  | (k2, v) :: rest => if k2 = k then v else jfieldsGet rest k dflt

/-- The outcome of one client library method call: a value, one of the
two error classes, or an uncaught Python error outside _request. -/
inductive CallResult where
  | ok (v : JVal)
  | err (e : ClientError)
  | crash (msg : String)

/-- The list normalization of get_threads and get_comments:
result if isinstance(result, list) else result.get("data", []).
Calling .get on a non-dict non-list value raises an AttributeError that
no handler catches. -/
def normalizeListResult (v : JVal) : CallResult :=
  match v with
  | .jarr l => .ok (.jarr l)
  | .jobj fields => .ok (jfieldsGet fields "data" (.jarr []))
  | _ => .crash "AttributeError"

def liftResult : Except ClientError JVal × List HttpRequest → CallResult × List HttpRequest
  | (.ok v, tr) => (.ok v, tr)
  | (.error e, tr) => (.err e, tr)

def liftListResult : Except ClientError JVal × List HttpRequest → CallResult × List HttpRequest
  | (.ok v, tr) => (normalizeListResult v, tr)
  | (.error e, tr) => (.err e, tr)

/-- The methods of FrontendAPIClient with their arguments. -/
inductive ClientCall where
  | login (email password : String)
  | register (name email password : String)
  | getThreads (user_id : Option Int) (page limit : Int)
  | createThread (thread_data : JVal)
  | getThread (thread_id : Int)
  | deleteThread (thread_id : Int)
  | getComments (thread_id is_approved : Option Int) (page limit : Int)
  | createComment (comment_data : JVal)
  | moderateComment (comment_id : Int) (is_approved : Int)
  | deleteComment (comment_id : Int)
  | bulkModerateComments (comment_ids : List Int) (action : String)
  | getWidgetComments (thread_id : Int)
  | getCommentsApi (filters : List (String × JVal))
  | getCommentStats
  | healthCheck

/-- Each client library method, translated from the source: the endpoint
and payload it builds and the single _request invocation it performs,
with the list normalization applied where the source applies it. -/
def runMethod (base : String) (call : ClientCall)
    (transport : HttpRequest → HttpOutcome) : CallResult × List HttpRequest :=
  match call with
  | .login email password =>
    liftResult (client_request transport base "POST" "/auth/login"
      (some (.jobj [("email", .jstr email), ("password", .jstr password)])) [])
  | .register name email password =>
    liftResult (client_request transport base "POST" "/auth/register"
      (some (.jobj [("name", .jstr name), ("email", .jstr email), ("password", .jstr password)])) [])
  | .getThreads user_id page limit =>
    let params := [("page", JVal.jnum page), ("limit", JVal.jnum limit)] ++
      (match user_id with
       | some uid => if uid ≠ 0 then [("usuario_proprietario_id", JVal.jnum uid)] else []
       | none => [])
    liftListResult (client_request transport base "GET" "/threads" none params)
  | .createThread thread_data =>
    liftResult (client_request transport base "POST" "/threads" (some thread_data) [])
  | .getThread thread_id =>
    liftResult (client_request transport base "GET" ("/threads/" ++ toString thread_id) none [])
  | .deleteThread thread_id =>
    liftResult (client_request transport base "DELETE" ("/threads/" ++ toString thread_id) none [])
  | .getComments thread_id is_approved page limit =>
    let params := [("page", JVal.jnum page), ("limit", JVal.jnum limit)] ++
      (match thread_id with
       | some tid => if tid ≠ 0 then [("thread_referencia_id", JVal.jnum tid)] else []
       | none => []) ++
      (match is_approved with
       | some v => [("is_approved", JVal.jnum v)]
       | none => [])
    liftListResult (client_request transport base "GET" "/comments" none params)
  | .createComment comment_data =>
    liftResult (client_request transport base "POST" "/comments" (some comment_data) [])
  | .moderateComment comment_id is_approved =>
    liftResult (client_request transport base "PUT"
      ("/comments/" ++ toString comment_id ++ "/moderate")
      (some (.jobj [("is_approved", .jnum is_approved)])) [])
  | .deleteComment comment_id =>
    liftResult (client_request transport base "DELETE"
      ("/comments/" ++ toString comment_id) none [])
  | .bulkModerateComments comment_ids action =>
    liftResult (client_request transport base "POST" "/moderate"
      (some (.jobj [("comment_ids", .jarr (comment_ids.map JVal.jnum)),
                    ("action", .jstr action)])) [])
  | .getWidgetComments thread_id =>
    liftResult (client_request transport base "GET"
      ("/widget/comments/" ++ toString thread_id) none [])
  | .getCommentsApi filters =>
    liftResult (client_request transport base "GET" "/api/comments" none filters)
  | .getCommentStats =>
    liftResult (client_request transport base "GET" "/api/comments/stats" none [])
  | .healthCheck =>
    liftResult (client_request transport base "GET" "/health" none [])

/-! ## Default route proxy and health check (routes/default.py) -/

/-- backend_request_default: proxy one call; for the /health endpoint a
non-2xx status is converted to a status error object, and any other
exception (transport failure, JSON decode failure) is converted to a
message error object; for other endpoints the exception propagates as the
error case of the Except value. -/
def backend_request_default (endpoint : String) (o : HttpOutcome) : Except String JVal :=
  match o with
  | .resp status text body =>
    if 200 ≤ status ∧ status < 300 then
      match body with
      | .inl v => .ok v
      | .inr m =>
        if endpoint = "/health" then
          .ok (.jobj [("status", .jstr "error"), ("message", .jstr m)])
        else .error m
    else
      if endpoint = "/health" then
        .ok (.jobj [("status", .jstr "error"), ("code", .jnum status)])
      else .error ("HTTPStatusError " ++ toString status ++ ": " ++ text)
  | .exn m =>
    if endpoint = "/health" then
      .ok (.jobj [("status", .jstr "error"), ("message", .jstr m)])
    else .error m

/-- GET /health: forward to the backend health endpoint and return the
result; the route level handler additionally converts any escaped
exception to a message error object, so a structured body is always
returned. -/
def health_route (o : HttpOutcome) : JVal :=
  match backend_request_default "/health" o with
  | .ok v => v
  | .error m => .jobj [("status", .jstr "error"), ("message", .jstr m)]

/-! ## Helper lemmas -/

theorem foldl_append_singleton {α β : Type} (f : α → β) (l : List α) :
    ∀ acc : List β, l.foldl (fun rs a => rs ++ [f a]) acc = acc ++ l.map f := by
  induction l with
  | nil => intro acc; simp
  | cons a as ih => intro acc; simp [ih]

/-! ## C8: theme normalization -/

/-- C8: for GET /, an absent or invalid tema parameter renders with
current_theme "default", a valid tema renders with that token, and the
full nine token list is always passed as available_themes. -/
theorem c8_theme_normalization (tema : Option String) :
    (home tema).available_themes = valid_themes
    ∧ (tema = none → (home tema).current_theme = "default")
    ∧ (∀ s, tema = some s → s ∉ valid_themes → (home tema).current_theme = "default")
    ∧ (∀ s, tema = some s → s ∈ valid_themes → (home tema).current_theme = s) := by
  refine ⟨rfl, ?_, ?_, ?_⟩
  · intro h; subst h; decide
  · intro s h hs; subst h; simp [home, hs]
  · intro s h hs; subst h; simp [home, hs]

theorem c8_theme_normalization_witness :
    (home (some "bogus-value")).current_theme = "default"
    ∧ (home (some "matrix")).current_theme = "matrix" :=
  ⟨(c8_theme_normalization (some "bogus-value")).2.2.1 "bogus-value" rfl (by decide),
   (c8_theme_normalization (some "matrix")).2.2.2 "matrix" rfl (by decide)⟩

/-! ## C10: truthiness based query parameter forwarding -/

/-- C10: in GET /comments/, an is_approved of 0 is forwarded, while a
thread_referencia_id of 0 or a limit of 0 is dropped, behaving exactly as
if the parameter had been omitted. -/
theorem c10_zero_valued_filters (tid iap lim : Option Int) :
    ("is_approved", (0 : Int)) ∈ list_comments_params tid (some 0) lim
    ∧ list_comments_params (some 0) iap lim = list_comments_params none iap lim
    ∧ list_comments_params tid iap (some 0) = list_comments_params tid iap none := by
  refine ⟨?_, ?_, ?_⟩
  · cases tid <;> cases lim <;> simp [list_comments_params] <;> split <;> simp
  · cases iap <;> cases lim <;> simp [list_comments_params]
  · cases tid <;> cases iap <;> simp [list_comments_params]

/-! ## C1: bulk moderation -/

/-- C1: POST /comments/moderate requires authentication; for an
authenticated user each submitted id is attempted in submission order,
yielding exactly one entry per id, where a success is recorded as
comment_id, success true and the result, a failure as comment_id, success
false and the error, and the entry of each id depends only on the backend
outcome for that id, so a failure in the middle does not stop later
ids. -/
theorem c1_bulk_moderation (comment_ids : List Int)
    (backend : Int → Except String String) :
    moderate_comments_bulk none comment_ids backend = .error 401
    ∧ (∀ u, moderate_comments_bulk (some u) comment_ids backend =
        .ok (comment_ids.map (moderationEntryFor backend)))
    ∧ (∀ u rs, moderate_comments_bulk (some u) comment_ids backend = .ok rs →
        rs.length = comment_ids.length
        ∧ ∀ i : Nat, rs[i]? = (comment_ids[i]?).map (moderationEntryFor backend))
    ∧ (∀ cid r, backend cid = .ok r →
        moderationEntryFor backend cid =
          { comment_id := cid, success := true, result := some r, error := none })
    ∧ (∀ cid e, backend cid = .error e →
        moderationEntryFor backend cid =
          { comment_id := cid, success := false, result := none, error := some e }) := by
  have hmap : ∀ u : String, moderate_comments_bulk (some u) comment_ids backend =
      .ok (comment_ids.map (moderationEntryFor backend)) := by
    intro u
    simp [moderate_comments_bulk, foldl_append_singleton]
  refine ⟨rfl, hmap, ?_, ?_, ?_⟩
  · intro u rs h
    rw [hmap u] at h
    have hrs : comment_ids.map (moderationEntryFor backend) = rs := by
      exact Except.ok.inj h
    subst hrs
    exact ⟨by simp, fun i => by simp [List.getElem?_map]⟩
  · intro cid r h; simp [moderationEntryFor, h]
  · intro cid e h; simp [moderationEntryFor, h]

theorem c1_bulk_moderation_witness :
    moderate_comments_bulk (some "admin") [1, 2, 3]
        (fun cid => if cid = 2 then .error "boom" else .ok "moderated")
      = .ok [{ comment_id := 1, success := true, result := some "moderated", error := none },
             { comment_id := 2, success := false, result := none, error := some "boom" },
             { comment_id := 3, success := true, result := some "moderated", error := none }] := by
  have h := (c1_bulk_moderation [1, 2, 3]
    (fun cid => if cid = 2 then .error "boom" else .ok "moderated")).2.1 "admin"
  exact h.trans (by rfl)

/-! ## C2: dashboard stats scope -/

/-- C2: GET /dashboard issues the comment fetch with parameters
is_approved 0 and limit 10, and for an authenticated user with both
fetches succeeding computes total as the size of the fetched comment set
and approved, pending and rejected as the counts of is_approved 1, 0 and
2 inside that same set, with the threads stat counting the separately
fetched thread list; if either backend call failed, the page is rendered
with empty thread and pending comment lists. -/
theorem c2_dashboard_stats_scope (u : String)
    (tr : Except Unit (RespShape Thread)) (cr : Except Unit (RespShape DashComment)) :
    dashboardCommentsParams = [("is_approved", 0), ("limit", 10)]
    ∧ (∀ trs crs, tr = .ok trs → cr = .ok crs →
        dashboard (some u) tr cr =
          .page (extractData trs) (extractData crs) (some
            { total := (extractData crs).length
              approved := countApproval (extractData crs) 1
              pending := countApproval (extractData crs) 0
              rejected := countApproval (extractData crs) 2
              threads := (extractData trs).length }))
    ∧ ((tr = .error () ∨ cr = .error ()) → dashboard (some u) tr cr = .page [] [] none) := by
  refine ⟨rfl, ?_, ?_⟩
  · intro trs crs h1 h2; subst h1; subst h2; rfl
  · rintro (h | h) <;> subst h
    · cases cr <;> rfl
    · cases tr <;> rfl

theorem c2_dashboard_stats_scope_witness :
    dashboard (some "alice")
        (.ok (.objWithData [(⟨7, "s", "https://s", "S - Main Thread"⟩ : Thread)]))
        (.ok (.arr [(⟨1, some 0⟩ : DashComment), (⟨2, some 0⟩ : DashComment)]))
      = .page [⟨7, "s", "https://s", "S - Main Thread"⟩]
          [⟨1, some 0⟩, ⟨2, some 0⟩] (some ⟨2, 0, 2, 0, 1⟩) := by
  have h := (c2_dashboard_stats_scope "alice"
    (.ok (.objWithData [(⟨7, "s", "https://s", "S - Main Thread"⟩ : Thread)]))
    (.ok (.arr [(⟨1, some 0⟩ : DashComment), (⟨2, some 0⟩ : DashComment)]))).2.1
    _ _ rfl rfl
  exact h.trans (by decide)

/-! ## C7: health check resilience -/

/-- C7: the default route health proxy never propagates a failure: a
non-2xx backend status yields a status error object carrying the upstream
code, an unreachable backend or any other exception yields a message
error object, a 2xx response with an undecodable body yields a message
error object, and a decodable 2xx body is passed through. -/
theorem c7_health_always_structured (o : HttpOutcome) :
    (∀ st text body, o = .resp st text body → ¬(200 ≤ st ∧ st < 300) →
      health_route o = .jobj [("status", .jstr "error"), ("code", .jnum st)])
    ∧ (∀ m, o = .exn m →
      health_route o = .jobj [("status", .jstr "error"), ("message", .jstr m)])
    ∧ (∀ st text m, o = .resp st text (.inr m) → (200 ≤ st ∧ st < 300) →
      health_route o = .jobj [("status", .jstr "error"), ("message", .jstr m)])
    ∧ (∀ st text v, o = .resp st text (.inl v) → (200 ≤ st ∧ st < 300) →
      health_route o = v) := by
  refine ⟨?_, ?_, ?_, ?_⟩
  · intro st text body h h2; subst h; simp [health_route, backend_request_default, h2]
  · intro m h; subst h; simp [health_route, backend_request_default]
  · intro st text m h h2; subst h; simp [health_route, backend_request_default, h2]
  · intro st text v h h2; subst h; simp [health_route, backend_request_default, h2]

theorem c7_health_always_structured_witness :
    health_route (.resp 503 "unavailable" (.inl .jnull))
        = .jobj [("status", .jstr "error"), ("code", .jnum 503)]
    ∧ health_route (.exn "connection refused")
        = .jobj [("status", .jstr "error"), ("message", .jstr "connection refused")] :=
  ⟨(c7_health_always_structured (.resp 503 "unavailable" (.inl .jnull))).1
      503 "unavailable" (.inl .jnull) rfl (by decide),
   (c7_health_always_structured (.exn "connection refused")).2.1 "connection refused" rfl⟩

/-! ## C9: response shape handling of the site detail page -/

/-- C9: for an authenticated user, GET /dashboard/sites/site_id renders
site None with empty thread and comment lists whenever the backend thread
listing is a bare JSON array, even a non-empty one, while GET
/dashboard/sites accepts both the bare array shape and the object with a
data key. -/
theorem c9_site_detail_bare_array (u site_id : String) (ts : List Thread)
    (cf : Nat → Except Unit (RespShape DashComment)) :
    site_detail_page site_id (some u) (.ok (.arr ts)) cf = .page none [] []
    ∧ sites_page (some u) (.ok (.arr ts)) =
        .page ((group_threads_by_site ts).map Prod.snd)
    ∧ sites_page (some u) (.ok (.objWithData ts)) =
        .page ((group_threads_by_site ts).map Prod.snd) :=
  ⟨rfl, rfl, rfl⟩

/-! ## C4: session validity window -/

theorem alookup_eq_none_of_keys {β : Type} (k : String) (l : List (String × β))
    (h : ∀ p ∈ l, p.1 ≠ k) : alookup k l = none := by
  induction l with
  | nil => rfl
  | cons e rest ih =>
    obtain ⟨k2, v⟩ := e
    have h1 : k2 ≠ k := h (k2, v) (by simp)
    have h2 : k ≠ k2 := fun hk => h1 hk.symm
    simp only [alookup, if_neg h2]
    exact ih (fun p hp => h p (by simp [hp]))

theorem get_current_user_found (sessions : List (String × SessionEntry))
    (now : Int) (sid : String) (entry : SessionEntry) (hne : sid ≠ "")
    (halk : alookup sid sessions = some entry) :
    get_current_user sessions (some sid) now =
      if now - entry.created_at > 86400 then (none, aerase sid sessions)
      else (some entry.user, sessions) := by
  simp [get_current_user, hne, halk]

theorem get_current_user_notfound (sessions : List (String × SessionEntry))
    (now : Int) (sid : String) (hne : sid ≠ "")
    (halk : alookup sid sessions = none) :
    get_current_user sessions (some sid) now = (none, sessions) := by
  simp [get_current_user, hne, halk]

/-- C4: get_current_user returns a user exactly when the cookie carries a
session id mapped in the store whose creation time is within the last 24
hours; an entry aged past 24 hours is deleted from the store and no user
is returned; an absent or unknown cookie yields no user and leaves the
store unchanged.  The store keys are the generated md5 session ids, hence
nonempty. -/
theorem c4_session_validity (sessions : List (String × SessionEntry))
    (cookie : Option String) (now : Int)
    (hkeys : ∀ p ∈ sessions, p.1 ≠ "") :
    (∀ u, (get_current_user sessions cookie now).1 = some u ↔
      ∃ sid entry, cookie = some sid ∧ alookup sid sessions = some entry
        ∧ now - entry.created_at ≤ 86400 ∧ entry.user = u)
    ∧ (∀ sid entry, cookie = some sid → alookup sid sessions = some entry →
        now - entry.created_at > 86400 →
        get_current_user sessions cookie now = (none, aerase sid sessions))
    ∧ (cookie = none → get_current_user sessions cookie now = (none, sessions))
    ∧ (∀ sid, cookie = some sid → alookup sid sessions = none →
        get_current_user sessions cookie now = (none, sessions)) := by
  have hgoodkey : ∀ sid entry, alookup sid sessions = some entry → sid ≠ "" := by
    intro sid entry halk hsid
    subst hsid
    rw [alookup_eq_none_of_keys _ _ hkeys] at halk
    exact Option.noConfusion halk
  refine ⟨?_, ?_, ?_, ?_⟩
  · intro u
    constructor
    · intro h
      cases hc : cookie with
      | none => rw [hc] at h; exact absurd h (by simp [get_current_user])
      | some sid =>
        rw [hc] at h
        by_cases hsid : sid = ""
        · subst hsid
          exact absurd h (by simp [get_current_user])
        · cases halk : alookup sid sessions with
          | none =>
            rw [get_current_user_notfound sessions now sid hsid halk] at h
            exact absurd h (by simp)
          | some entry =>
            rw [get_current_user_found sessions now sid entry hsid halk] at h
            by_cases hexp : now - entry.created_at > 86400
            · rw [if_pos hexp] at h; exact absurd h (by simp)
            · rw [if_neg hexp] at h
              refine ⟨sid, entry, rfl, halk, by omega, ?_⟩
              exact Option.some.inj h
    · rintro ⟨sid, entry, rfl, halk, hle, rfl⟩
      rw [get_current_user_found sessions now sid entry (hgoodkey sid entry halk) halk,
        if_neg (by omega)]
  · intro sid entry hc halk hexp
    subst hc
    rw [get_current_user_found sessions now sid entry (hgoodkey sid entry halk) halk,
      if_pos hexp]
  · intro h; subst h; rfl
  · intro sid hc halk
    subst hc
    by_cases hsid : sid = ""
    · subst hsid; rfl
    · exact get_current_user_notfound sessions now sid hsid halk

theorem c4_session_validity_witness :
    (get_current_user [("a1b2c3", ⟨"alice", 100⟩)] (some "a1b2c3") 200).1 = some "alice"
    ∧ get_current_user [("a1b2c3", ⟨"alice", 100⟩)] (some "a1b2c3") 100000
        = (none, [])
    ∧ get_current_user [("a1b2c3", ⟨"alice", 100⟩)] (some "zzzz") 200
        = (none, [("a1b2c3", ⟨"alice", 100⟩)]) := by
  refine ⟨?_, ?_, ?_⟩
  · exact ((c4_session_validity [("a1b2c3", ⟨"alice", 100⟩)] (some "a1b2c3") 200
      (by decide)).1 "alice").mpr ⟨"a1b2c3", ⟨"alice", 100⟩, rfl, rfl, by decide, rfl⟩
  · have h := (c4_session_validity [("a1b2c3", ⟨"alice", 100⟩)] (some "a1b2c3") 100000
      (by decide)).2.1 "a1b2c3" ⟨"alice", 100⟩ rfl rfl (by decide)
    exact h.trans (by decide)
  · exact (c4_session_validity [("a1b2c3", ⟨"alice", 100⟩)] (some "zzzz") 200
      (by decide)).2.2.2 "zzzz" rfl (by decide)

/-! ## C3: export reply tree -/

theorem foldl_treeStep (ds : List ExportComment) :
    ∀ store : List (ExportComment × List Int),
      ds.foldl treeStep store =
        store.map (fun e => (e.1, e.2 ++ repliesFrom ds e.1.id)) := by
  induction ds with
  | nil => intro store; simp [repliesFrom]
  | cons c ds ih =>
    intro store
    rw [List.foldl_cons, ih]
    cases hc : c.parent_id with
    | none =>
      have hfun : (fun (e : ExportComment × List Int) => (e.1, e.2 ++ repliesFrom ds e.1.id))
          = (fun e => (e.1, e.2 ++ repliesFrom (c :: ds) e.1.id)) := by
        funext e
        simp [repliesFrom, List.filter_cons, pidTruthy, hc]
      simp only [treeStep, hc]
      rw [hfun]
    | some pid =>
      by_cases hz : pid = 0
      · subst hz
        have hfun : (fun (e : ExportComment × List Int) => (e.1, e.2 ++ repliesFrom ds e.1.id))
            = (fun e => (e.1, e.2 ++ repliesFrom (c :: ds) e.1.id)) := by
          funext e
          simp [repliesFrom, List.filter_cons, pidTruthy, hc]
        simp only [treeStep, hc]
        rw [if_neg (fun h => h rfl), hfun]
      · simp only [treeStep, hc]
        rw [if_pos hz, List.map_map]
        congr 1
        funext e
        by_cases he : e.1.id = pid
        · simp only [Function.comp, he, if_pos rfl]
          have htr2 : pidTruthy c = true := by simp [pidTruthy, hc, hz]
          simp [repliesFrom, List.filter_cons, he, htr2, hc, List.append_assoc]
        · simp only [Function.comp, if_neg he]
          have hcond : (pidTruthy c && (c.parent_id == some e.1.id)) = false := by
            simp [pidTruthy, hc, hz]
            intro h
            exact absurd h.symm he
          simp [repliesFrom, List.filter_cons, hcond]

theorem buildStore_closed (cs : List ExportComment) :
    buildStore cs = cs.map (fun c => (c, repliesFrom cs c.id)) := by
  rw [buildStore, initStore, foldl_treeStep, List.map_map]
  rfl

theorem topLevel_closed (cs : List ExportComment) :
    topLevel cs = (cs.filter (fun c => !(pidTruthy c))).map
      (fun c => (c, repliesFrom cs c.id)) := by
  rw [topLevel, buildStore_closed, List.filter_map]
  rfl

/-- C3: in the export reply tree built over the approved comment set,
each comment with a truthy parent_id whose parent is present in the set
is appended to the replies of the present parent entry; the top level
list is exactly the comments without a truthy parent_id, each with its
accumulated replies; a comment whose parent is absent from the set
appears neither at top level nor in any replies list; and the concrete
one root plus one reply case yields a single top entry whose replies hold
exactly the reply. -/
theorem c3_export_tree (cs : List ExportComment)
    (hnd : (cs.map (fun c => c.id)).Nodup) :
    (∀ c ∈ cs, pidTruthy c = true →
      ∀ p ∈ cs, c.parent_id = some p.id →
        (p, repliesFrom cs p.id) ∈ buildStore cs ∧ c.id ∈ repliesFrom cs p.id)
    ∧ topLevel cs = (cs.filter (fun c => !(pidTruthy c))).map
        (fun c => (c, repliesFrom cs c.id))
    ∧ (∀ c ∈ cs, pidTruthy c = true → (∀ p ∈ cs, c.parent_id ≠ some p.id) →
        (∀ e ∈ buildStore cs, c.id ∉ e.2) ∧ ∀ e ∈ topLevel cs, e.1.id ≠ c.id)
    ∧ topLevel [⟨1, "root", "hi", "2024-01-01", none⟩,
        ⟨2, "replier", "yo", "2024-01-02", some 1⟩]
      = [(⟨1, "root", "hi", "2024-01-01", none⟩, [2])] := by
  have hinj : ∀ x ∈ cs, ∀ y ∈ cs, x.id = y.id → x = y :=
    fun _ hx _ hy hxy => List.inj_on_of_nodup_map hnd hx hy hxy
  refine ⟨?_, topLevel_closed cs, ?_, by decide⟩
  · intro c hc htr p hp hpid
    constructor
    · rw [buildStore_closed]
      exact List.mem_map_of_mem (fun c => (c, repliesFrom cs c.id)) hp
    · rw [repliesFrom]
      refine List.mem_map_of_mem (fun d : ExportComment => d.id) ?_
      rw [List.mem_filter]
      exact ⟨hc, by simp [htr, hpid]⟩
  · intro c hc htr horphan
    constructor
    · intro e he hmem
      rw [buildStore_closed] at he
      obtain ⟨d, hd, rfl⟩ := List.mem_map.mp he
      rw [repliesFrom] at hmem
      obtain ⟨x, hx, hxid⟩ := List.mem_map.mp hmem
      rw [List.mem_filter] at hx
      obtain ⟨hxcs, hxcond⟩ := hx
      have hxc : x = c := hinj x hxcs c hc hxid
      subst hxc
      have : x.parent_id = some d.id := by
        have h2 := (Bool.and_eq_true _ _).mp hxcond
        simpa using h2.2
      exact horphan d hd this
    · intro e he heid
      rw [topLevel_closed] at he
      obtain ⟨d, hd, rfl⟩ := List.mem_map.mp he
      rw [List.mem_filter] at hd
      have hdc : d = c := hinj d hd.1 c hc heid
      subst hdc
      rw [htr] at hd
      simpa using hd.2

theorem c3_export_tree_witness :
    topLevel [⟨1, "root", "hi", "2024-01-01", none⟩,
        ⟨2, "replier", "yo", "2024-01-02", some 1⟩]
      = [(⟨1, "root", "hi", "2024-01-01", none⟩, [2])] :=
  (c3_export_tree [⟨1, "root", "hi", "2024-01-01", none⟩,
    ⟨2, "replier", "yo", "2024-01-02", some 1⟩] (by decide)).2.2.2

/-! ## C5: site grouping -/

theorem alookup_append {β : Type} (k : String) (l1 l2 : List (String × β)) :
    alookup k (l1 ++ l2) =
      match alookup k l1 with
      | some v => some v
      | none => alookup k l2 := by
  induction l1 with
  | nil => simp [alookup]
  | cons e rest ih =>
    obtain ⟨k2, v⟩ := e
    by_cases h : k = k2 <;> simp [alookup, h, ih]

theorem alookup_map_addthread (k target : String) (t : Thread)
    (l : List (String × SiteGroup)) :
    alookup k (l.map (fun e =>
        if e.1 = target then (e.1, { e.2 with threads := e.2.threads ++ [t] }) else e)) =
      if k = target then
        (alookup k l).map (fun g => { g with threads := g.threads ++ [t] })
      else alookup k l := by
  induction l with
  | nil => by_cases h : k = target <;> simp [alookup, h]
  | cons e rest ih =>
    obtain ⟨k2, v⟩ := e
    rw [List.map_cons]
    by_cases h1 : k2 = target
    · subst h1
      rw [if_pos rfl]
      by_cases h2 : k = k2
      · subst h2
        simp [alookup]
      · simp only [alookup, if_neg h2]
        rw [ih]
        simp [alookup, h2]
    · rw [if_neg h1]
      by_cases h2 : k = k2
      · subst h2
        simp [alookup, h1]
      · simp only [alookup, if_neg h2]
        rw [ih]

theorem group_snoc (ts : List Thread) (t : Thread) :
    group_threads_by_site (ts ++ [t]) = addThreadToSites (group_threads_by_site ts) t := by
  simp [group_threads_by_site, List.foldl_append]

theorem expectedGroup_append_ne (epid : String) (ts : List Thread) (t : Thread)
    (h : ¬ t.external_page_id = epid) :
    expectedGroup epid (ts ++ [t]) = expectedGroup epid ts := by
  unfold expectedGroup
  rw [List.filter_append]
  simp [List.filter_cons, h]

theorem expectedGroup_snoc_of_some (ts : List Thread) (t : Thread) (g : SiteGroup)
    (h : expectedGroup t.external_page_id ts = some g) :
    expectedGroup t.external_page_id (ts ++ [t])
      = some { g with threads := g.threads ++ [t] } := by
  cases hf : ts.filter (fun x => x.external_page_id == t.external_page_id) with
  | nil =>
    unfold expectedGroup at h
    rw [hf] at h
    simp at h
  | cons t0 rest =>
    unfold expectedGroup at h
    rw [hf] at h
    have hft : List.filter (fun x => x.external_page_id == t.external_page_id) [t] = [t] := by
      simp
    unfold expectedGroup
    rw [List.filter_append, hf, hft]
    have h2 : _ = g := Option.some.inj h
    subst h2
    simp

theorem expectedGroup_snoc_of_none (ts : List Thread) (t : Thread)
    (h : expectedGroup t.external_page_id ts = none) :
    expectedGroup t.external_page_id (ts ++ [t])
      = some { site_id := t.external_page_id, site_name := siteNameOf t.title,
               site_url := t.url, threads := [t], total_comments := 0 } := by
  cases hf : ts.filter (fun x => x.external_page_id == t.external_page_id) with
  | cons t0 rest =>
    unfold expectedGroup at h
    rw [hf] at h
    simp at h
  | nil =>
    have hft : List.filter (fun x => x.external_page_id == t.external_page_id) [t] = [t] := by
      simp
    unfold expectedGroup
    rw [List.filter_append, hf, hft]
    simp

theorem group_lookup (threads : List Thread) (epid : String) :
    alookup epid (group_threads_by_site threads) = expectedGroup epid threads := by
  induction threads using List.reverseRecOn with
  | nil => rfl
  | append_singleton ts t ih =>
    rw [group_snoc]
    simp only [addThreadToSites]
    rw [alookup_map_addthread]
    by_cases hk : epid = t.external_page_id
    · subst hk
      rw [if_pos rfl]
      cases halk : alookup t.external_page_id (group_threads_by_site ts) with
      | some g =>
        have hg : expectedGroup t.external_page_id ts = some g := ih.symm.trans halk
        rw [if_pos (by simp [halk]), halk, expectedGroup_snoc_of_some ts t g hg]
        rfl
      | none =>
        have hg : expectedGroup t.external_page_id ts = none := ih.symm.trans halk
        rw [if_neg (by simp [halk]), alookup_append, halk,
          expectedGroup_snoc_of_none ts t hg]
        simp [alookup, newSiteGroup]
    · rw [if_neg hk]
      have hne : ¬ t.external_page_id = epid := fun h => hk h.symm
      rw [expectedGroup_append_ne epid ts t hne]
      by_cases hs : (alookup t.external_page_id (group_threads_by_site ts)).isSome
      · rw [if_pos hs]; exact ih
      · rw [if_neg hs, alookup_append, ← ih]
        cases halk : alookup epid (group_threads_by_site ts) with
        | some v => simp [halk]
        | none => simp [halk, alookup, hk]

theorem group_entries (threads : List Thread) :
    ∀ e ∈ group_threads_by_site threads, expectedGroup e.1 threads = some e.2 := by
  induction threads using List.reverseRecOn with
  | nil => intro e he; simp [group_threads_by_site] at he
  | append_singleton ts t ih =>
    intro e he
    rw [group_snoc] at he
    simp only [addThreadToSites] at he
    obtain ⟨e0, he0, rfl⟩ := List.mem_map.mp he
    have hmemG : e0 ∈ group_threads_by_site ts ∨
        (e0 = (t.external_page_id, newSiteGroup t)
          ∧ alookup t.external_page_id (group_threads_by_site ts) = none) := by
      by_cases hs : (alookup t.external_page_id (group_threads_by_site ts)).isSome
      · rw [if_pos hs] at he0; exact Or.inl he0
      · rw [if_neg hs] at he0
        rcases List.mem_append.mp he0 with h | h
        · exact Or.inl h
        · exact Or.inr ⟨by simpa using h, Option.not_isSome_iff_eq_none.mp hs⟩
    by_cases hk : e0.1 = t.external_page_id
    · rcases hmemG with h | ⟨h, hnone⟩
      · have hexp := ih e0 h
        rw [hk] at hexp
        have hstep := expectedGroup_snoc_of_some ts t e0.2 hexp
        rw [if_pos hk]
        show expectedGroup e0.1 (ts ++ [t])
          = some { e0.2 with threads := e0.2.threads ++ [t] }
        rw [hk]
        exact hstep
      · subst h
        have hgnone : expectedGroup t.external_page_id ts = none :=
          (group_lookup ts t.external_page_id).symm.trans hnone
        have hstep := expectedGroup_snoc_of_none ts t hgnone
        rw [if_pos rfl]
        show expectedGroup t.external_page_id (ts ++ [t])
          = some { newSiteGroup t with threads := (newSiteGroup t).threads ++ [t] }
        rw [hstep]
        simp [newSiteGroup]
    · rw [if_neg hk]
      have hne : ¬ t.external_page_id = e0.1 := fun h => hk h.symm
      rw [expectedGroup_append_ne e0.1 ts t hne]
      rcases hmemG with h | ⟨h, _⟩
      · exact ih e0 h
      · exact absurd (by rw [h]) hk

/-- C5 (amended): group_threads_by_site returns a mapping keyed by
external_page_id whose group for each key holds exactly the input threads
sharing that key in input order, with site_url taken from the first such
thread, site_name equal to the first thread title with every occurrence
of " - Main Thread" removed, and total_comments 0; and every entry of the
returned mapping is exactly the group expected for its key. -/
theorem c5_group_threads_characterization (threads : List Thread) :
    (∀ epid, alookup epid (group_threads_by_site threads) = expectedGroup epid threads)
    ∧ ∀ e ∈ group_threads_by_site threads, expectedGroup e.1 threads = some e.2 :=
  ⟨fun epid => group_lookup threads epid, group_entries threads⟩

/-- C5 counterexample: the source removes every occurrence of the marker
with str.replace, not only a suffix, so for a title containing the marker
in the middle the computed site_name differs from the title with the
literal suffix removed, which the claim as stated requires. -/
theorem c5_suffix_claim_counterexample :
    (alookup "site-1" (group_threads_by_site
        [⟨1, "site-1", "https://a.example", "My Site - Main Thread Archive"⟩])).map
        SiteGroup.site_name
      = some "My Site Archive"
    ∧ stripSuffixSpec "My Site - Main Thread Archive" = "My Site - Main Thread Archive"
    ∧ (alookup "site-1" (group_threads_by_site
        [⟨1, "site-1", "https://a.example", "My Site - Main Thread Archive"⟩])).map
        SiteGroup.site_name
      ≠ some (stripSuffixSpec "My Site - Main Thread Archive") :=
  ⟨by decide, by decide, by decide⟩

theorem c5_group_threads_characterization_witness :
    expectedGroup "site-1"
        [⟨1, "site-1", "https://one.example", "Alpha - Main Thread"⟩,
         ⟨2, "site-1", "https://one.example/p", "Alpha Post"⟩,
         ⟨3, "site-2", "https://two.example", "Beta - Main Thread"⟩]
      = some ⟨"site-1", "Alpha", "https://one.example",
          [⟨1, "site-1", "https://one.example", "Alpha - Main Thread"⟩,
           ⟨2, "site-1", "https://one.example/p", "Alpha Post"⟩], 0⟩ :=
  (c5_group_threads_characterization
    [⟨1, "site-1", "https://one.example", "Alpha - Main Thread"⟩,
     ⟨2, "site-1", "https://one.example/p", "Alpha Post"⟩,
     ⟨3, "site-2", "https://two.example", "Beta - Main Thread"⟩]).2
    ("site-1", ⟨"site-1", "Alpha", "https://one.example",
      [⟨1, "site-1", "https://one.example", "Alpha - Main Thread"⟩,
       ⟨2, "site-1", "https://one.example/p", "Alpha Post"⟩], 0⟩)
    (by decide)

/-! ## C6: client error classes -/

theorem liftResult_snd (p : Except ClientError JVal × List HttpRequest) :
    (liftResult p).2 = p.2 := by
  obtain ⟨r, tr⟩ := p
  cases r <;> rfl

theorem liftListResult_snd (p : Except ClientError JVal × List HttpRequest) :
    (liftListResult p).2 = p.2 := by
  obtain ⟨r, tr⟩ := p
  cases r <;> rfl

theorem liftResult_fst_error (p : Except ClientError JVal × List HttpRequest)
    (e : ClientError) (h : p.1 = .error e) : (liftResult p).1 = .err e := by
  obtain ⟨r, tr⟩ := p
  cases r with
  | ok v => exact absurd h (by simp)
  | error e2 =>
    have h2 : e2 = e := Except.error.inj h
    subst h2
    rfl

theorem liftListResult_fst_error (p : Except ClientError JVal × List HttpRequest)
    (e : ClientError) (h : p.1 = .error e) : (liftListResult p).1 = .err e := by
  obtain ⟨r, tr⟩ := p
  cases r with
  | ok v => exact absurd h (by simp)
  | error e2 =>
    have h2 : e2 = e := Except.error.inj h
    subst h2
    rfl

theorem client_request_trace_len (transport : HttpRequest → HttpOutcome)
    (base method endpoint : String) (data : Option JVal) (params : List (String × JVal))
    (hm : pyUpper method = "GET" ∨ pyUpper method = "POST" ∨ pyUpper method = "PUT"
      ∨ pyUpper method = "DELETE") :
    ((client_request transport base method endpoint data params).2).length = 1 := by
  simp only [client_request]
  rw [if_pos hm]
  cases htr : transport (⟨pyUpper method, base ++ endpoint, data, params⟩ : HttpRequest) with
  | resp st text body =>
    simp only [htr]
    by_cases h2 : 200 ≤ st ∧ st < 300
    · rw [if_pos h2]
      cases body <;> rfl
    · rw [if_neg h2]
      rfl
  | exn m =>
    simp only [htr]
    rfl

theorem client_request_non2xx (base method endpoint : String) (data : Option JVal)
    (params : List (String × JVal)) (st : Nat) (text : String) (body : JVal ⊕ String)
    (hm : pyUpper method = "GET" ∨ pyUpper method = "POST" ∨ pyUpper method = "PUT"
      ∨ pyUpper method = "DELETE")
    (h : ¬(200 ≤ st ∧ st < 300)) :
    (client_request (fun _ => .resp st text body) base method endpoint data params).1
      = .error (.statusError st text) := by
  simp only [client_request]
  rw [if_pos hm, if_neg h]

theorem client_request_exn (base method endpoint : String) (data : Option JVal)
    (params : List (String × JVal)) (m : String)
    (hm : pyUpper method = "GET" ∨ pyUpper method = "POST" ∨ pyUpper method = "PUT"
      ∨ pyUpper method = "DELETE") :
    (client_request (fun _ => .exn m) base method endpoint data params).1
      = .error (.unreachable m) := by
  simp only [client_request]
  rw [if_pos hm]

/-- C6: every method of the API client performs exactly one HTTP call; a
non-2xx upstream status makes the call fail with the status error class
carrying the upstream code and the response body text; any other
transport failure makes it fail with the unreachable class carrying the
underlying message; and the two classes are distinguishable by the
caller, both as values and by the prefix of their rendered exception
messages. -/
theorem c6_client_error_classes (base : String) (call : ClientCall) :
    (∀ transport, ((runMethod base call transport).2).length = 1)
    ∧ (∀ st text body, ¬(200 ≤ st ∧ st < 300) →
        (runMethod base call (fun _ => .resp st text body)).1
          = .err (.statusError st text))
    ∧ (∀ m, (runMethod base call (fun _ => .exn m)).1 = .err (.unreachable m))
    ∧ (∀ code bodyText m, ClientError.statusError code bodyText ≠ .unreachable m
        ∧ looksLikeStatusMessage (ClientError.message (.statusError code bodyText)) = true
        ∧ looksLikeStatusMessage (ClientError.message (.unreachable m)) = false) := by
  refine ⟨?_, ?_, ?_, ?_⟩
  · intro transport
    cases call <;> simp only [runMethod, liftResult_snd, liftListResult_snd] <;>
      exact client_request_trace_len _ _ _ _ _ _ (by decide)
  · intro st text body h
    cases call <;> simp only [runMethod] <;>
      first
        | exact liftResult_fst_error _ _ (client_request_non2xx _ _ _ _ _ _ _ _ (by decide) h)
        | exact liftListResult_fst_error _ _
            (client_request_non2xx _ _ _ _ _ _ _ _ (by decide) h)
  · intro m
    cases call <;> simp only [runMethod] <;>
      first
        | exact liftResult_fst_error _ _ (client_request_exn _ _ _ _ _ _ (by decide))
        | exact liftListResult_fst_error _ _ (client_request_exn _ _ _ _ _ _ (by decide))
  · intro code bodyText m
    exact ⟨fun h => ClientError.noConfusion h, rfl, rfl⟩

theorem c6_client_error_classes_witness :
    (runMethod "http://backend" .getCommentStats
        (fun _ => .resp 500 "oops" (.inl .jnull))).1
      = .err (.statusError 500 "oops")
    ∧ (runMethod "http://backend" .getCommentStats (fun _ => .exn "timeout")).1
      = .err (.unreachable "timeout") :=
  ⟨(c6_client_error_classes "http://backend" .getCommentStats).2.1 500 "oops" (.inl .jnull)
      (by decide),
   (c6_client_error_classes "http://backend" .getCommentStats).2.2.1 "timeout"⟩

end NocodeFrontend
